import Mathlib

/-!
Shallow embedding of the swapchain/device negotiation sequence of
`src/01/src/main.rs` (the gfx-hal tutorial snippet).  The negotiation
extracts, from the capabilities a surface reports for an adapter, a
(format, extent, presentation mode) triple together with a
`SwapchainConfig`, mirroring lines 41–97 of `main`.

Machine integers (`u32`, `usize`) are modelled as `Nat`; no arithmetic in
the negotiation can overflow or wrap, the code only takes `max`/`min` of
reported values.  Rust panics (index out of bounds, `unwrap` on
`None`/`Err`) are modelled by `Option`/`Except`: a `none`/`.error` result
is a panic of the source program.
-/

namespace GfxNeg

/-- Channel type of a format's base format, from gfx-hal's `format::ChannelType`. -/
inductive ChannelType
  | Unorm | Inorm | Uscaled | Iscaled | Uint | Int | Ufloat | Float | Srgb
deriving DecidableEq, Repr

/-- Surface (component layout) part of a format's base format, from gfx-hal's
`format::SurfaceType`.  Only the layouts the tutorial mentions are listed;
the claims quantify over formats through the `Format` structure below. -/
inductive SurfaceType
  | R8_G8_B8_A8 | B8_G8_R8_A8 | R5_G6_B5
deriving DecidableEq, Repr

/-- A gfx-hal `format::Format`, represented by what `Format::base_format`
returns for it: a surface type paired with a channel type.  The source only
inspects formats through `base_format`, so this representation is faithful. -/
structure Format where
  surfaceTy : SurfaceType
  channelTy : ChannelType
deriving DecidableEq, Repr

/-- gfx-hal's `Format::base_format`, returning the (surface, channel) pair. -/
def Format.base_format (f : Format) : SurfaceType × ChannelType :=
  (f.surfaceTy, f.channelTy)

/-- `Format::Rgba8Srgb`. -/
def Format.Rgba8Srgb : Format := ⟨SurfaceType.R8_G8_B8_A8, ChannelType.Srgb⟩

/-- `Format::Bgra8Unorm`. -/
def Format.Bgra8Unorm : Format := ⟨SurfaceType.B8_G8_R8_A8, ChannelType.Unorm⟩

/-- gfx-hal's `window::Extent2D` (`width`, `height` are `u32`). -/
structure Extent2D where
  width : Nat
  height : Nat
deriving DecidableEq, Repr

/-- Rust's half-open-by-convention `std::ops::Range` record as gfx-hal uses it
for capability bounds: a `start` and an `end` field (the tutorial reads both
ends inclusively through `max`/`min`). -/
structure RangeOf (α : Type) where
  start : α
  «end» : α
deriving DecidableEq, Repr

/-- gfx-hal's `window::SurfaceCapabilities`. -/
structure SurfaceCapabilities where
  image_count : RangeOf Nat
  current_extent : Option Extent2D
  extents : RangeOf Extent2D
  max_image_layers : Nat
deriving DecidableEq, Repr

/-- gfx-hal's `window::PresentMode`. -/
inductive PresentMode
  | Immediate | Relaxed | Fifo | Mailbox
deriving DecidableEq, Repr

/-- gfx-hal's `image::Usage` bitflags, as a `Nat` bitmask. -/
def Usage.COLOR_ATTACHMENT : Nat := 16

/-- gfx-hal's `window::SwapchainConfig` (the tutorial-era version: the extent
is passed to `create_swapchain` separately, so it is not a field here). -/
structure SwapchainConfig where
  color_format : Format
  depth_stencil_format : Option Format
  image_count : Nat
  image_usage : Nat
deriving DecidableEq, Repr

/-- `SwapchainConfig::new()`: gfx-hal's default configuration.  The tutorial
overrides `color_format`, `image_count` and `image_usage` through the builder
methods below, so of these defaults only `depth_stencil_format := none`
survives into the built configuration; no claim depends on the others. -/
def SwapchainConfig.new : SwapchainConfig :=
  { color_format := Format.Bgra8Unorm
    depth_stencil_format := none
    image_count := 2
    image_usage := Usage.COLOR_ATTACHMENT }

/-- `SwapchainConfig::with_color`. -/
def SwapchainConfig.with_color (c : SwapchainConfig) (cf : Format) : SwapchainConfig :=
  { c with color_format := cf }

/-- `SwapchainConfig::with_image_count`. -/
def SwapchainConfig.with_image_count (c : SwapchainConfig) (count : Nat) : SwapchainConfig :=
  { c with image_count := count }

/-- `SwapchainConfig::with_image_usage`. -/
def SwapchainConfig.with_image_usage (c : SwapchainConfig) (usage : Nat) : SwapchainConfig :=
  { c with image_usage := usage }

/-- A queue family of an adapter: an identifier plus whether it supports the
`Graphics` capability (`open_with::<_, hal::Graphics>` filters on this). -/
structure QueueFamily where
  id : Nat
  supports_graphics : Bool
deriving DecidableEq, Repr

/-- A physical adapter, as far as the negotiation inspects it: its queue
families (`adapter.queue_families`). -/
structure Adapter where
  families : List QueueFamily
deriving DecidableEq, Repr

/-- The surface, as the negotiation uses it: the queue-family predicate
`surface.supports_queue_family` and, per adapter, the triple returned by
`surface.compatibility(&adapter.physical_device)`:
`(SurfaceCapabilities, Option<Vec<Format>>, Vec<PresentMode>)`. -/
structure Surface where
  supports_queue_family : QueueFamily → Bool
  compatibility : Adapter → SurfaceCapabilities × Option (List Format) × List PresentMode

/-- gfx-hal's `Adapter::open_with::<_, hal::Graphics>(1, selector)`: request a
device with one queue from a family that has the `Graphics` capability and is
accepted by the selector.  Returning the chosen family models success; `none`
models the `Err(DeviceCreationError)` the tutorial immediately `unwrap`s. -/
def open_with (a : Adapter) (selector : QueueFamily → Bool) : Option QueueFamily :=
  a.families.find? (fun family => family.supports_graphics && selector family)

/-- Format selection, lines 55–62 of `main`:
`formats.map_or(Format::Rgba8Srgb, |formats| formats.iter()
   .find(|format| format.base_format().1 == ChannelType::Srgb)
   .map(|format| *format).unwrap_or(formats[0]))`.
The `none` result models the index panic of `formats[0]` on an empty vector. -/
def negotiate_surface_format (formats : Option (List Format)) : Option Format :=
  match formats with
  | none => some Format.Rgba8Srgb
  | some fs =>
    match fs.find? (fun format => format.base_format.2 == ChannelType.Srgb) with
    | some format => some format
    | none => fs.head?

/-- Extent selection, lines 64–79 of `main`: use `capabilities.current_extent`
verbatim when present; otherwise start from the window's physical size and
apply `.max(extents.start).min(extents.end)` to each dimension. -/
def negotiate_extent (capabilities : SurfaceCapabilities) (window_size : Extent2D) :
    Extent2D :=
  match capabilities.current_extent with
  | some extent => extent
  | none =>
    { width :=
        Nat.min (Nat.max window_size.width capabilities.extents.start.width)
          capabilities.extents.«end».width
      height :=
        Nat.min (Nat.max window_size.height capabilities.extents.start.height)
          capabilities.extents.«end».height }

/-- Presentation-mode selection, lines 81–85 of `main`:
`presentation_modes.iter().find(|&mode| *mode == PresentMode::Immediate)
   .map(|mode| *mode).unwrap_or(PresentMode::Fifo)`. -/
def negotiate_presentation_mode (modes : List PresentMode) : PresentMode :=
  match modes.find? (fun mode => mode == PresentMode.Immediate) with
  | some mode => mode
  | none => PresentMode.Fifo

/-- The panic sites of the negotiation sequence, in source order:
`adapters.remove(0)` on an empty vector (index out of bounds),
`open_with(..).unwrap()` on `Err(DeviceCreationError)`, and `formats[0]`
on an empty format vector. -/
inductive NegotiationPanic
  | removeIndexOutOfBounds
  | openWithUnwrap
  | formatsIndexOutOfBounds
deriving DecidableEq, Repr

/-- Everything the negotiation sequence of `main` produces. -/
structure NegotiationResult where
  adapter : Adapter
  queue_family : QueueFamily
  format : Format
  extent : Extent2D
  presentation_mode : PresentMode
  swap_config : SwapchainConfig
deriving DecidableEq, Repr

/-- The negotiation sequence of `main`, lines 41–97: take the first enumerated
adapter (`adapters.remove(0)`), open a device on it with a graphics queue
family accepted by `surface.supports_queue_family` (`.unwrap()`), query
`surface.compatibility`, pick format, extent and presentation mode, and build
the `SwapchainConfig`.  `window_size` is the window's physical pixel size
(`window.get_inner_size().unwrap().to_physical(..)`). -/
def negotiate (adapters : List Adapter) (surface : Surface) (window_size : Extent2D) :
    Except NegotiationPanic NegotiationResult :=
  match adapters.head? with
  | none => Except.error NegotiationPanic.removeIndexOutOfBounds
  | some adapter =>
    match open_with adapter surface.supports_queue_family with
    | none => Except.error NegotiationPanic.openWithUnwrap
    | some qf =>
      match negotiate_surface_format (surface.compatibility adapter).2.1 with
      | none => Except.error NegotiationPanic.formatsIndexOutOfBounds
      | some format =>
        Except.ok
          { adapter := adapter
            queue_family := qf
            format := format
            extent := negotiate_extent (surface.compatibility adapter).1 window_size
            presentation_mode :=
              negotiate_presentation_mode (surface.compatibility adapter).2.2
            swap_config :=
              (((SwapchainConfig.new).with_color format).with_image_count
                  (surface.compatibility adapter).1.image_count.start).with_image_usage
                Usage.COLOR_ATTACHMENT }

/-- The adapter-selection policy as the spec words it (for comparison with the
source's `adapters.remove(0)`): the first adapter whose queue families include
one supporting presentation to the target surface, `none` standing for
`NoCompatibleAdapterError`. -/
def select_adapter_spec (adapters : List Adapter) (surface : Surface) : Option Adapter :=
  adapters.find? (fun a => a.families.any surface.supports_queue_family)

/-- Well-formedness of reported surface capabilities, as the underlying API
guarantees them: each range has `start ≤ end`, and a reported
`current_extent`, when defined, lies within the reported extent bounds. -/
def SurfaceCapabilities.WellFormed (c : SurfaceCapabilities) : Prop :=
  c.extents.start.width ≤ c.extents.«end».width ∧
  c.extents.start.height ≤ c.extents.«end».height ∧
  c.image_count.start ≤ c.image_count.«end» ∧
  ∀ e, c.current_extent = some e →
    (c.extents.start.width ≤ e.width ∧ e.width ≤ c.extents.«end».width ∧
     c.extents.start.height ≤ e.height ∧ e.height ≤ c.extents.«end».height)

end GfxNeg

namespace GfxNeg

/-- C1: for every capability set without a defined `current_extent`,
`negotiate_extent` clamps the window's physical size into
`[extents.start, extents.end]` per dimension: the resulting width and height
lie within those bounds inclusive for every window size (given the reported
bounds satisfy `start ≤ end`), and in the concrete scenario with extents
`[(640,480),(1920,1080)]` and window size `(100,100)` the result is
`(640,480)`. -/
theorem C1_extent_clamped :
    (∀ (capabilities : SurfaceCapabilities) (window_size : Extent2D),
       capabilities.current_extent = none →
       capabilities.extents.start.width ≤ capabilities.extents.«end».width →
       capabilities.extents.start.height ≤ capabilities.extents.«end».height →
       capabilities.extents.start.width ≤ (negotiate_extent capabilities window_size).width ∧
       (negotiate_extent capabilities window_size).width ≤ capabilities.extents.«end».width ∧
       capabilities.extents.start.height ≤ (negotiate_extent capabilities window_size).height ∧
       (negotiate_extent capabilities window_size).height ≤ capabilities.extents.«end».height) ∧
    (∀ (ic : RangeOf Nat) (mil : Nat),
       negotiate_extent ⟨ic, none, ⟨⟨640, 480⟩, ⟨1920, 1080⟩⟩, mil⟩ ⟨100, 100⟩ =
         ⟨640, 480⟩) := by
  constructor
  · intro capabilities window_size hnone hw hh
    simp only [negotiate_extent, hnone]
    refine ⟨?_, ?_, ?_, ?_⟩ <;> simp <;> omega
  · intro ic mil
    simp [negotiate_extent]

/-- Witness for C1 at the scenario capability set and window size `(100,100)`. -/
theorem C1_extent_clamped_witness :
    640 ≤ (negotiate_extent ⟨⟨2, 3⟩, none, ⟨⟨640, 480⟩, ⟨1920, 1080⟩⟩, 1⟩ ⟨100, 100⟩).width ∧
    (negotiate_extent ⟨⟨2, 3⟩, none, ⟨⟨640, 480⟩, ⟨1920, 1080⟩⟩, 1⟩ ⟨100, 100⟩).width ≤ 1920 ∧
    480 ≤ (negotiate_extent ⟨⟨2, 3⟩, none, ⟨⟨640, 480⟩, ⟨1920, 1080⟩⟩, 1⟩ ⟨100, 100⟩).height ∧
    (negotiate_extent ⟨⟨2, 3⟩, none, ⟨⟨640, 480⟩, ⟨1920, 1080⟩⟩, 1⟩ ⟨100, 100⟩).height ≤ 1080 :=
  C1_extent_clamped.1 ⟨⟨2, 3⟩, none, ⟨⟨640, 480⟩, ⟨1920, 1080⟩⟩, 1⟩ ⟨100, 100⟩ rfl
    (by decide) (by decide)

/-- C2: for every capability set with a defined `current_extent`,
`negotiate_extent` returns exactly that extent; the window size has no effect
on the result; and in the concrete scenario with `current_extent
Some((800,600))` and window size `(1280,720)` the result is `(800,600)`. -/
theorem C2_current_extent_verbatim :
    (∀ (capabilities : SurfaceCapabilities) (window_size extent : Extent2D),
       capabilities.current_extent = some extent →
       negotiate_extent capabilities window_size = extent) ∧
    (∀ (capabilities : SurfaceCapabilities) (ws₁ ws₂ : Extent2D),
       capabilities.current_extent.isSome →
       negotiate_extent capabilities ws₁ = negotiate_extent capabilities ws₂) ∧
    (∀ (ic : RangeOf Nat) (ext : RangeOf Extent2D) (mil : Nat),
       negotiate_extent ⟨ic, some ⟨800, 600⟩, ext, mil⟩ ⟨1280, 720⟩ = ⟨800, 600⟩) := by
  refine ⟨?_, ?_, ?_⟩
  · intro capabilities window_size extent hsome
    simp [negotiate_extent, hsome]
  · intro capabilities ws₁ ws₂ hsome
    rcases Option.isSome_iff_exists.mp hsome with ⟨e, he⟩
    simp [negotiate_extent, he]
  · intro ic ext mil
    simp [negotiate_extent]

/-- Witness for C2 at `current_extent = some (800,600)` and window size
`(1280,720)`. -/
theorem C2_current_extent_verbatim_witness :
    negotiate_extent ⟨⟨2, 3⟩, some ⟨800, 600⟩, ⟨⟨1, 1⟩, ⟨4096, 4096⟩⟩, 1⟩ ⟨1280, 720⟩ =
      ⟨800, 600⟩ :=
  C2_current_extent_verbatim.1 ⟨⟨2, 3⟩, some ⟨800, 600⟩, ⟨⟨1, 1⟩, ⟨4096, 4096⟩⟩, 1⟩
    ⟨1280, 720⟩ ⟨800, 600⟩ rfl

end GfxNeg

namespace GfxNeg

/-- C3: format negotiation is a three-way policy.  For a present list
containing an sRGB-channel format, `negotiate_surface_format` returns the
first such format (the list's `find?` on the sRGB predicate), which is an
sRGB member of the list; for a present, non-empty list with no sRGB format it
returns the list's first entry; for an absent list it returns the fixed
default `Rgba8Srgb`; and on `[Bgra8Unorm, Rgba8Srgb]` it returns
`Rgba8Srgb`. -/
theorem C3_format_policy :
    (∀ (fs : List Format), (∃ g ∈ fs, g.base_format.2 = ChannelType.Srgb) →
       negotiate_surface_format (some fs) =
         fs.find? (fun g => g.base_format.2 == ChannelType.Srgb) ∧
       ∃ f, negotiate_surface_format (some fs) = some f ∧
         f.base_format.2 = ChannelType.Srgb ∧ f ∈ fs) ∧
    (∀ (f : Format) (fs : List Format),
       (∀ g ∈ f :: fs, g.base_format.2 ≠ ChannelType.Srgb) →
       negotiate_surface_format (some (f :: fs)) = some f) ∧
    negotiate_surface_format none = some Format.Rgba8Srgb ∧
    negotiate_surface_format (some [Format.Bgra8Unorm, Format.Rgba8Srgb]) =
      some Format.Rgba8Srgb := by
  refine ⟨?_, ?_, rfl, by decide⟩
  · intro fs hex
    rcases hex with ⟨g, hg, hsrgb⟩
    have hsome : (fs.find? (fun g => g.base_format.2 == ChannelType.Srgb)).isSome := by
      rw [List.find?_isSome]
      exact ⟨g, hg, by simp [hsrgb]⟩
    rcases Option.isSome_iff_exists.mp hsome with ⟨f, hf⟩
    have hmem := List.mem_of_find?_eq_some hf
    have hp := List.find?_some hf
    refine ⟨?_, f, ?_, by simpa using hp, hmem⟩
    · simp [negotiate_surface_format, hf]
    · simp [negotiate_surface_format, hf]
  · intro f fs hnone
    have hfind : (f :: fs).find? (fun g => g.base_format.2 == ChannelType.Srgb) = none := by
      rw [List.find?_eq_none]
      intro g hg
      simpa using hnone g hg
    simp [negotiate_surface_format, hfind]

/-- Witness for C3: on `[Bgra8Unorm, Rgba8Srgb]` the result is an sRGB member
of the list, and a list of only `Bgra8Unorm` yields its first entry. -/
theorem C3_format_policy_witness :
    (negotiate_surface_format (some [Format.Bgra8Unorm, Format.Rgba8Srgb]) =
       [Format.Bgra8Unorm, Format.Rgba8Srgb].find?
         (fun g => g.base_format.2 == ChannelType.Srgb) ∧
     ∃ f, negotiate_surface_format (some [Format.Bgra8Unorm, Format.Rgba8Srgb]) = some f ∧
       f.base_format.2 = ChannelType.Srgb ∧ f ∈ [Format.Bgra8Unorm, Format.Rgba8Srgb]) ∧
    negotiate_surface_format (some [Format.Bgra8Unorm]) = some Format.Bgra8Unorm :=
  ⟨C3_format_policy.1 [Format.Bgra8Unorm, Format.Rgba8Srgb]
      ⟨Format.Rgba8Srgb, by decide, by decide⟩,
   C3_format_policy.2.1 Format.Bgra8Unorm [] (by decide)⟩

/-- C4: for every supported presentation-mode list containing `Immediate`,
`negotiate_presentation_mode` returns `Immediate`; for every list not
containing `Immediate`, it returns `Fifo` regardless of its other elements. -/
theorem C4_present_mode_policy :
    (∀ (modes : List PresentMode), PresentMode.Immediate ∈ modes →
       negotiate_presentation_mode modes = PresentMode.Immediate) ∧
    (∀ (modes : List PresentMode), PresentMode.Immediate ∉ modes →
       negotiate_presentation_mode modes = PresentMode.Fifo) := by
  constructor
  · intro modes hmem
    have hsome : (modes.find? (fun mode => mode == PresentMode.Immediate)).isSome := by
      rw [List.find?_isSome]
      exact ⟨PresentMode.Immediate, hmem, by decide⟩
    rcases Option.isSome_iff_exists.mp hsome with ⟨m, hm⟩
    have hp := List.find?_some hm
    have hmeq : m = PresentMode.Immediate := by simpa using hp
    simp [negotiate_presentation_mode, hm, hmeq]
  · intro modes hnot
    have hfind : modes.find? (fun mode => mode == PresentMode.Immediate) = none := by
      rw [List.find?_eq_none]
      intro m hm
      simp only [beq_iff_eq]
      intro hcontr
      exact hnot (hcontr ▸ hm)
    simp [negotiate_presentation_mode, hfind]

/-- Witness for C4: `[Fifo, Immediate]` yields `Immediate`; `[Mailbox, Fifo]`
yields `Fifo`. -/
theorem C4_present_mode_policy_witness :
    negotiate_presentation_mode [PresentMode.Fifo, PresentMode.Immediate] =
      PresentMode.Immediate ∧
    negotiate_presentation_mode [PresentMode.Mailbox, PresentMode.Fifo] =
      PresentMode.Fifo :=
  ⟨C4_present_mode_policy.1 [PresentMode.Fifo, PresentMode.Immediate] (by decide),
   C4_present_mode_policy.2 [PresentMode.Mailbox, PresentMode.Fifo] (by decide)⟩

end GfxNeg

namespace GfxNeg

/-- A format chosen from a present format list is a member of that list. -/
theorem negotiate_surface_format_mem {fs : List Format} {f : Format}
    (h : negotiate_surface_format (some fs) = some f) : f ∈ fs := by
  simp only [negotiate_surface_format] at h
  cases hfind : fs.find? (fun format => format.base_format.2 == ChannelType.Srgb) with
  | some g =>
    simp only [hfind] at h
    cases h
    exact List.mem_of_find?_eq_some hfind
  | none =>
    simp only [hfind] at h
    cases fs with
    | nil => simp at h
    | cons a t => cases h; simp

/-- Inversion of a successful negotiation: a success comes from the first
enumerated adapter, a graphics queue family of it accepted by the surface,
and a successful format selection, and every field of the result is the
corresponding negotiated value. -/
theorem negotiate_eq_ok {adapters : List Adapter} {surface : Surface} {ws : Extent2D}
    {r : NegotiationResult} (h : negotiate adapters surface ws = Except.ok r) :
    ∃ a rest qf,
      adapters = a :: rest ∧
      open_with a surface.supports_queue_family = some qf ∧
      negotiate_surface_format (surface.compatibility a).2.1 = some r.format ∧
      r.adapter = a ∧ r.queue_family = qf ∧
      r.extent = negotiate_extent (surface.compatibility a).1 ws ∧
      r.presentation_mode = negotiate_presentation_mode (surface.compatibility a).2.2 ∧
      r.swap_config = ⟨r.format, none, (surface.compatibility a).1.image_count.start,
        Usage.COLOR_ATTACHMENT⟩ := by
  cases adapters with
  | nil => simp [negotiate] at h
  | cons a rest =>
    refine ⟨a, rest, ?_⟩
    simp only [negotiate, List.head?] at h
    cases hopen : open_with a surface.supports_queue_family with
    | none => rw [hopen] at h; simp at h
    | some qf =>
      rw [hopen] at h
      cases hfmt : negotiate_surface_format (surface.compatibility a).2.1 with
      | none => rw [hfmt] at h; simp at h
      | some format =>
        rw [hfmt] at h
        rw [Except.ok.injEq] at h
        subst h
        exact ⟨qf, rfl, rfl, rfl, rfl, rfl, rfl, rfl, rfl⟩

/-- An adapter whose only queue family (id 0, graphics-capable) does not
support presentation to the concrete surface below. -/
def adapterNoPresent : Adapter := ⟨[⟨0, true⟩]⟩

/-- An adapter whose only queue family (id 1, graphics-capable) supports
presentation to the concrete surface below. -/
def adapterWithPresent : Adapter := ⟨[⟨1, true⟩]⟩

/-- A concrete surface: presentation is supported exactly by queue family
id 1, every adapter reports capabilities with no fixed current extent,
image-count range `[2,3]`, extent bounds `[(1,1),(4096,4096)]`, an
unconstrained (absent) format list, and `[Fifo]` as presentation modes. -/
def surfaceOnlyFamily1 : Surface :=
  { supports_queue_family := fun family => family.id == 1
    compatibility := fun _ =>
      (⟨⟨2, 3⟩, none, ⟨⟨1, 1⟩, ⟨4096, 4096⟩⟩, 1⟩, none, [PresentMode.Fifo]) }

/-- The value a successful negotiation produces on `[adapterWithPresent]`,
`surfaceOnlyFamily1` and window size `(1280,720)`. -/
def resultSingle : NegotiationResult :=
  { adapter := adapterWithPresent
    queue_family := ⟨1, true⟩
    format := Format.Rgba8Srgb
    extent := ⟨1280, 720⟩
    presentation_mode := PresentMode.Fifo
    swap_config := ⟨Format.Rgba8Srgb, none, 2, Usage.COLOR_ATTACHMENT⟩ }

/-- C5, counterexample: with adapters `[adapterNoPresent, adapterWithPresent]`
the spec's policy selects `adapterWithPresent` (the first adapter with a
presentation-capable queue family), but the code takes `adapters.remove(0)`
unconditionally and then aborts at the device-open `unwrap`: negotiation
produces no result at all, so it does not pick the first qualifying
adapter. -/
theorem C5_counterexample :
    select_adapter_spec [adapterNoPresent, adapterWithPresent] surfaceOnlyFamily1 =
      some adapterWithPresent ∧
    adapterWithPresent ≠ adapterNoPresent ∧
    negotiate [adapterNoPresent, adapterWithPresent] surfaceOnlyFamily1 ⟨1280, 720⟩ =
      Except.error NegotiationPanic.openWithUnwrap := by
  refine ⟨by decide, by decide, rfl⟩

/-- C5, amended: adapter selection takes the first enumerated adapter
unconditionally (`adapters.remove(0)`); presentation support is only consulted
when opening the device on that adapter, whose queue family is then
graphics-capable, surface-accepted and belongs to that adapter; when the first
adapter has no such family, negotiation aborts with the device-open panic
instead of trying later adapters. -/
theorem C5_first_adapter_unconditional :
    (∀ (a : Adapter) (rest : List Adapter) (surface : Surface) (ws : Extent2D)
       (r : NegotiationResult),
       negotiate (a :: rest) surface ws = Except.ok r → r.adapter = a) ∧
    (∀ (adapters : List Adapter) (surface : Surface) (ws : Extent2D)
       (r : NegotiationResult),
       negotiate adapters surface ws = Except.ok r →
       r.queue_family.supports_graphics = true ∧
       surface.supports_queue_family r.queue_family = true ∧
       r.queue_family ∈ r.adapter.families) ∧
    (∀ (a : Adapter) (rest : List Adapter) (surface : Surface) (ws : Extent2D),
       open_with a surface.supports_queue_family = none →
       negotiate (a :: rest) surface ws = Except.error NegotiationPanic.openWithUnwrap) := by
  refine ⟨?_, ?_, ?_⟩
  · intro a rest surface ws r h
    rcases negotiate_eq_ok h with ⟨a', rest', qf, heq, _, _, hadapter, _⟩
    cases heq
    exact hadapter
  · intro adapters surface ws r h
    rcases negotiate_eq_ok h with ⟨a, rest, qf, heq, hopen, _, hadapter, hqf, _⟩
    have hfound := List.find?_some hopen
    have hmem := List.mem_of_find?_eq_some hopen
    rw [Bool.and_eq_true] at hfound
    subst hqf
    rw [hadapter]
    exact ⟨hfound.1, hfound.2, hmem⟩
  · intro a rest surface ws hopen
    simp [negotiate, List.head?, hopen]

/-- Witness for the amended C5: on `[adapterWithPresent]` the selected adapter
is the list head, and on `[adapterNoPresent]` (whose head has no accepted
family) negotiation aborts at the device-open `unwrap`. -/
theorem C5_first_adapter_unconditional_witness :
    resultSingle.adapter = adapterWithPresent ∧
    negotiate [adapterNoPresent] surfaceOnlyFamily1 ⟨1280, 720⟩ =
      Except.error NegotiationPanic.openWithUnwrap :=
  ⟨C5_first_adapter_unconditional.1 adapterWithPresent [] surfaceOnlyFamily1 ⟨1280, 720⟩
      resultSingle rfl,
   C5_first_adapter_unconditional.2.2 adapterNoPresent [] surfaceOnlyFamily1 ⟨1280, 720⟩
      (by decide)⟩

end GfxNeg

namespace GfxNeg

/-- A concrete surface reporting a present but empty format list (everything
else as in `surfaceOnlyFamily1`, with presentation accepted by every
family). -/
def surfaceEmptyFormats : Surface :=
  { supports_queue_family := fun _ => true
    compatibility := fun _ =>
      (⟨⟨2, 3⟩, none, ⟨⟨1, 1⟩, ⟨4096, 4096⟩⟩, 1⟩, some [], [PresentMode.Fifo]) }

/-- C6: an empty adapter list is fatal at the enumeration/selection step:
for every surface and window size, negotiation on `[]` aborts with the
`adapters.remove(0)` index panic — the code's realisation of
`NoAdaptersFoundError` — without any device call (the outcome is the same
whatever the surface would answer), and this failure mode arises only from
an empty adapter list, never from any later step. -/
theorem C6_empty_adapter_list_fatal_before_device :
    (∀ (surface : Surface) (ws : Extent2D),
       negotiate [] surface ws = Except.error NegotiationPanic.removeIndexOutOfBounds) ∧
    (∀ (adapters : List Adapter) (surface : Surface) (ws : Extent2D),
       negotiate adapters surface ws = Except.error NegotiationPanic.removeIndexOutOfBounds →
       adapters = []) := by
  constructor
  · intro surface ws
    rfl
  · intro adapters surface ws h
    cases adapters with
    | nil => rfl
    | cons a rest =>
      exfalso
      simp only [negotiate, List.head?] at h
      cases hopen : open_with a surface.supports_queue_family with
      | none => rw [hopen] at h; simp at h
      | some qf =>
        rw [hopen] at h
        cases hfmt : negotiate_surface_format (surface.compatibility a).2.1 with
        | none => rw [hfmt] at h; simp at h
        | some format => rw [hfmt] at h; simp at h

/-- Witness for C6 on the concrete empty adapter list. -/
theorem C6_empty_adapter_list_fatal_before_device_witness :
    negotiate [] surfaceOnlyFamily1 ⟨1280, 720⟩ =
      Except.error NegotiationPanic.removeIndexOutOfBounds ∧
    ([] : List Adapter) = [] :=
  ⟨C6_empty_adapter_list_fatal_before_device.1 surfaceOnlyFamily1 ⟨1280, 720⟩,
   C6_empty_adapter_list_fatal_before_device.2 [] surfaceOnlyFamily1 ⟨1280, 720⟩
     (C6_empty_adapter_list_fatal_before_device.1 surfaceOnlyFamily1 ⟨1280, 720⟩)⟩

/-- C7: on every successful negotiation, given that the selected adapter's
reported capabilities are well-formed, the chosen image count lies within
`capabilities.image_count`, the chosen extent lies within
`capabilities.extents`, and the chosen format is the fixed default when the
surface is unconstrained and a member of the reported format list
otherwise. -/
theorem C7_negotiated_values_within_reported_bounds :
    ∀ (adapters : List Adapter) (surface : Surface) (ws : Extent2D)
      (r : NegotiationResult),
      negotiate adapters surface ws = Except.ok r →
      (surface.compatibility r.adapter).1.WellFormed →
      ((surface.compatibility r.adapter).1.image_count.start ≤
          r.swap_config.image_count ∧
        r.swap_config.image_count ≤
          (surface.compatibility r.adapter).1.image_count.«end») ∧
      ((surface.compatibility r.adapter).1.extents.start.width ≤ r.extent.width ∧
        r.extent.width ≤ (surface.compatibility r.adapter).1.extents.«end».width ∧
        (surface.compatibility r.adapter).1.extents.start.height ≤ r.extent.height ∧
        r.extent.height ≤ (surface.compatibility r.adapter).1.extents.«end».height) ∧
      ((surface.compatibility r.adapter).2.1 = none → r.format = Format.Rgba8Srgb) ∧
      (∀ fs, (surface.compatibility r.adapter).2.1 = some fs → r.format ∈ fs) := by
  intro adapters surface ws r h hwf
  rcases negotiate_eq_ok h with
    ⟨a, rest, qf, heq, hopen, hfmt, hadapter, hqf, hextent, hpm, hsc⟩
  rw [hadapter] at hwf ⊢
  refine ⟨?_, ?_, ?_, ?_⟩
  · rw [hsc]
    exact ⟨Nat.le_refl _, hwf.2.2.1⟩
  · rw [hextent]
    cases hce : (surface.compatibility a).1.current_extent with
    | some e =>
      simp only [negotiate_extent, hce]
      exact hwf.2.2.2 e hce
    | none =>
      simp only [negotiate_extent, hce]
      have h1 := hwf.1
      have h2 := hwf.2.1
      refine ⟨?_, ?_, ?_, ?_⟩ <;> simp <;> omega
  · intro hnone
    rw [hnone] at hfmt
    simp only [negotiate_surface_format, Option.some.injEq] at hfmt
    exact hfmt.symm
  · intro fs hsome
    rw [hsome] at hfmt
    exact negotiate_surface_format_mem hfmt

/-- Witness for C7 on `[adapterWithPresent]`, `surfaceOnlyFamily1`, window
size `(1280,720)`. -/
theorem C7_negotiated_values_within_reported_bounds_witness :
    ((surfaceOnlyFamily1.compatibility resultSingle.adapter).1.image_count.start ≤
        resultSingle.swap_config.image_count ∧
      resultSingle.swap_config.image_count ≤
        (surfaceOnlyFamily1.compatibility resultSingle.adapter).1.image_count.«end») ∧
    ((surfaceOnlyFamily1.compatibility resultSingle.adapter).1.extents.start.width ≤
        resultSingle.extent.width ∧
      resultSingle.extent.width ≤
        (surfaceOnlyFamily1.compatibility resultSingle.adapter).1.extents.«end».width ∧
      (surfaceOnlyFamily1.compatibility resultSingle.adapter).1.extents.start.height ≤
        resultSingle.extent.height ∧
      resultSingle.extent.height ≤
        (surfaceOnlyFamily1.compatibility resultSingle.adapter).1.extents.«end».height) ∧
    ((surfaceOnlyFamily1.compatibility resultSingle.adapter).2.1 = none →
      resultSingle.format = Format.Rgba8Srgb) ∧
    (∀ fs, (surfaceOnlyFamily1.compatibility resultSingle.adapter).2.1 = some fs →
      resultSingle.format ∈ fs) :=
  C7_negotiated_values_within_reported_bounds [adapterWithPresent] surfaceOnlyFamily1
    ⟨1280, 720⟩ resultSingle rfl
    (by
      simp only [SurfaceCapabilities.WellFormed]
      refine ⟨by decide, by decide, by decide, ?_⟩
      intro e he
      simp [surfaceOnlyFamily1] at he)

end GfxNeg

namespace GfxNeg

/-- C8: no partial-success state exists — negotiation succeeds exactly when
every step of the chain succeeds (a first adapter exists, the device opens on
it, and format selection succeeds), and each failure propagates immediately as
the distinct error of its own step: a failed device open (the code's
`DeviceCreationError` site) yields exactly that error, and a failed format
selection yields exactly the format-selection error. -/
theorem C8_failures_propagate_no_partial_success :
    (∀ (adapters : List Adapter) (surface : Surface) (ws : Extent2D),
       (∃ r, negotiate adapters surface ws = Except.ok r) ↔
         ∃ a rest, adapters = a :: rest ∧
           (open_with a surface.supports_queue_family).isSome = true ∧
           (negotiate_surface_format (surface.compatibility a).2.1).isSome = true) ∧
    (∀ (a : Adapter) (rest : List Adapter) (surface : Surface) (ws : Extent2D),
       open_with a surface.supports_queue_family = none →
       negotiate (a :: rest) surface ws =
         Except.error NegotiationPanic.openWithUnwrap) ∧
    (∀ (a : Adapter) (rest : List Adapter) (surface : Surface) (ws : Extent2D)
       (qf : QueueFamily),
       open_with a surface.supports_queue_family = some qf →
       negotiate_surface_format (surface.compatibility a).2.1 = none →
       negotiate (a :: rest) surface ws =
         Except.error NegotiationPanic.formatsIndexOutOfBounds) := by
  refine ⟨?_, ?_, ?_⟩
  · intro adapters surface ws
    constructor
    · rintro ⟨r, hr⟩
      rcases negotiate_eq_ok hr with
        ⟨a, rest, qf, heq, hopen, hfmt, _, _, _, _, _⟩
      exact ⟨a, rest, heq, by simp [hopen], by simp [hfmt]⟩
    · rintro ⟨a, rest, heq, hopen, hfmt⟩
      subst heq
      rcases Option.isSome_iff_exists.mp hopen with ⟨qf, hqf⟩
      rcases Option.isSome_iff_exists.mp hfmt with ⟨fmt, hf⟩
      refine ⟨{ adapter := a
                queue_family := qf
                format := fmt
                extent := negotiate_extent (surface.compatibility a).1 ws
                presentation_mode :=
                  negotiate_presentation_mode (surface.compatibility a).2.2
                swap_config := ⟨fmt, none, (surface.compatibility a).1.image_count.start,
                  Usage.COLOR_ATTACHMENT⟩ }, ?_⟩
      simp only [negotiate, List.head?, hqf, hf]
      rfl
  · intro a rest surface ws hopen
    simp [negotiate, List.head?, hopen]
  · intro a rest surface ws qf hopen hfmt
    simp [negotiate, List.head?, hopen, hfmt]

/-- Witness for C8: a full-chain success, a device-open failure and a
format-selection failure, each at concrete inputs. -/
theorem C8_failures_propagate_no_partial_success_witness :
    (∃ r, negotiate [adapterWithPresent] surfaceOnlyFamily1 ⟨1280, 720⟩ =
      Except.ok r) ∧
    negotiate [adapterNoPresent] surfaceOnlyFamily1 ⟨1280, 720⟩ =
      Except.error NegotiationPanic.openWithUnwrap ∧
    negotiate [adapterWithPresent] surfaceEmptyFormats ⟨100, 100⟩ =
      Except.error NegotiationPanic.formatsIndexOutOfBounds :=
  ⟨(C8_failures_propagate_no_partial_success.1 [adapterWithPresent] surfaceOnlyFamily1
      ⟨1280, 720⟩).mpr ⟨adapterWithPresent, [], rfl, by decide, by decide⟩,
   C8_failures_propagate_no_partial_success.2.1 adapterNoPresent [] surfaceOnlyFamily1
     ⟨1280, 720⟩ (by decide),
   C8_failures_propagate_no_partial_success.2.2 adapterWithPresent [] surfaceEmptyFormats
     ⟨100, 100⟩ ⟨1, true⟩ rfl rfl⟩

/-- C9: a present but empty format list makes format selection panic on the
out-of-bounds index `formats[0]` instead of falling back to the fixed
default; format selection on a present list is total exactly under the
precondition that the list is non-empty, and in the full pipeline a surface
reporting `Some([])` aborts negotiation with the index panic. -/
theorem C9_empty_format_list_panics :
    negotiate_surface_format (some ([] : List Format)) = none ∧
    (∀ (fs : List Format), fs ≠ [] →
       (negotiate_surface_format (some fs)).isSome = true) ∧
    (∀ (a : Adapter) (rest : List Adapter) (surface : Surface) (ws : Extent2D)
       (qf : QueueFamily),
       open_with a surface.supports_queue_family = some qf →
       (surface.compatibility a).2.1 = some [] →
       negotiate (a :: rest) surface ws =
         Except.error NegotiationPanic.formatsIndexOutOfBounds) := by
  refine ⟨rfl, ?_, ?_⟩
  · intro fs hne
    cases fs with
    | nil => exact absurd rfl hne
    | cons a t =>
      simp only [negotiate_surface_format]
      cases hfind : (a :: t).find? (fun format => format.base_format.2 == ChannelType.Srgb)
        with
      | some g => simp [hfind]
      | none => simp [hfind]
  · intro a rest surface ws qf hopen hfmts
    have h0 : negotiate_surface_format (some ([] : List Format)) = none := rfl
    simp [negotiate, List.head?, hopen, hfmts, h0]

/-- Witness for C9: a singleton list is accepted, and the concrete surface
reporting `Some([])` aborts the pipeline with the index panic. -/
theorem C9_empty_format_list_panics_witness :
    (negotiate_surface_format (some [Format.Bgra8Unorm])).isSome = true ∧
    negotiate [adapterWithPresent] surfaceEmptyFormats ⟨100, 100⟩ =
      Except.error NegotiationPanic.formatsIndexOutOfBounds :=
  ⟨C9_empty_format_list_panics.2.1 [Format.Bgra8Unorm] (by decide),
   C9_empty_format_list_panics.2.2 adapterWithPresent [] surfaceEmptyFormats ⟨100, 100⟩
     ⟨1, true⟩ rfl rfl⟩

/-- C10: every successful negotiation requests the swapchain with exactly the
minimum supported image count (`capabilities.image_count.start`) and with
`COLOR_ATTACHMENT` as the sole image usage. -/
theorem C10_min_image_count_color_attachment_usage :
    ∀ (adapters : List Adapter) (surface : Surface) (ws : Extent2D)
      (r : NegotiationResult),
      negotiate adapters surface ws = Except.ok r →
      r.swap_config.image_count =
        (surface.compatibility r.adapter).1.image_count.start ∧
      r.swap_config.image_usage = Usage.COLOR_ATTACHMENT := by
  intro adapters surface ws r h
  rcases negotiate_eq_ok h with
    ⟨a, rest, qf, heq, hopen, hfmt, hadapter, hqf, hextent, hpm, hsc⟩
  rw [hadapter, hsc]
  exact ⟨rfl, rfl⟩

/-- Witness for C10 at the concrete successful negotiation. -/
theorem C10_min_image_count_color_attachment_usage_witness :
    resultSingle.swap_config.image_count =
      (surfaceOnlyFamily1.compatibility resultSingle.adapter).1.image_count.start ∧
    resultSingle.swap_config.image_usage = Usage.COLOR_ATTACHMENT :=
  C10_min_image_count_color_attachment_usage [adapterWithPresent] surfaceOnlyFamily1
    ⟨1280, 720⟩ resultSingle rfl

end GfxNeg
